import Mathlib

/-!
Verification of the personal schedule assistant (`src/main.py`).

The Python program is shallowly embedded: the in-memory JSON document
becomes a `Document` of `ScheduleItem`/`TodoItem` lists, the
`PersonalAssistant` object state (document plus the single undo
checkpoint slot) becomes `AssistantState`, and each mutation method
becomes a pure function from state (plus a `saveOk` flag standing for
the outcome of `save_data`) to state and an explicit outcome that
records which branch of the Python method fired.
-/

namespace ScheduleAssistant

/-! ### Character and string helpers (modelling `str.split`, `str.lower`,
`str.startswith`) -/

/-- Whitespace as recognised by Python `str.split()` (the characters
that matter for command lines). -/
def isSpace (c : Char) : Bool :=
  c = ' ' || c = '\t' || c = '\n' || c = '\r'

/-- ASCII lower-casing of one character, modelling `str.lower` on the
command alphabet. -/
def charLower (c : Char) : Char :=
  if 'A' ≤ c ∧ c ≤ 'Z' then Char.ofNat (c.toNat + 32) else c

/-- `str.lower`. -/
def pyLower (s : String) : String :=
  String.mk (s.data.map charLower)

/-- Split a character list on runs of whitespace, dropping empty pieces:
the behaviour of Python `str.split()` with no argument. -/
def splitWsAux : List Char → List Char → List (List Char)
  | [], acc => if acc.isEmpty then [] else [acc.reverse]
  | c :: cs, acc =>
    if isSpace c then
      if acc.isEmpty then splitWsAux cs [] else acc.reverse :: splitWsAux cs []
    else
      splitWsAux cs (c :: acc)

/-- `command.strip().split()`: whitespace tokenisation of a command line. -/
def tokenize (s : String) : List String :=
  (splitWsAux s.data []).map String.mk

/-- `a.startswith(b)` on character lists. -/
def listStarts : List Char → List Char → Bool
  | _, [] => true
  | [], _ :: _ => false
  | c :: cs, d :: ds => c = d && listStarts cs ds

/-- `s.startswith(p)`. -/
def pyStarts (s p : String) : Bool :=
  listStarts s.data p.data

/-! ### Datetime validation

`validate_datetime` calls `datetime.strptime(s, "%Y-%m-%d %H:%M")`.
CPython compiles that format to the regex
`(?P<Y>\d\d\d\d)-(?P<m>1[0-2]|0[1-9]|[1-9])-(?P<d>3[01]|[12]\d|0[1-9]|[1-9])\s+(?P<H>2[0-3]|[0-1]\d|\d):(?P<M>[0-5]\d|\d)`,
requires the match to consume the whole string, and then the
`datetime` constructor enforces the real-calendar constraints
(year ≥ 1, day ≤ days-in-month with the Gregorian leap rule).  Each
numeric field is a maximal digit run (the separators are non-digits),
so the regex is equivalent to the deterministic parser below: year is
exactly 4 digits, month/day/hour/minute are 1 or 2 digits within
range, and one-or-more whitespace characters separate date and time. -/

/-- Numeric value of a digit run. -/
def digitsVal (ds : List Char) : Nat :=
  ds.foldl (fun a c => 10 * a + (c.toNat - 48)) 0

/-- Gregorian leap-year rule (as in Python's `datetime`). -/
def isLeapYear (y : Nat) : Bool :=
  y % 4 = 0 && (y % 100 ≠ 0 || y % 400 = 0)

/-- Days in a month of the proleptic Gregorian calendar. -/
def daysInMonth (y m : Nat) : Nat :=
  if m = 2 then (if isLeapYear y then 29 else 28)
  else if m = 4 || m = 6 || m = 9 || m = 11 then 30
  else 31

/-- Parsed fields of a `"%Y-%m-%d %H:%M"` datetime:
year, month, day, hour, minute. -/
structure DateTimeFields where
  year : Nat
  month : Nat
  day : Nat
  hour : Nat
  minute : Nat
  deriving DecidableEq, Repr

/-- The `strptime`-equivalent parser described above: `none` exactly
when `datetime.strptime(s, "%Y-%m-%d %H:%M")` raises `ValueError`. -/
def parseDatetime (s : String) : Option DateTimeFields :=
  let cs := s.data
  let yds := cs.takeWhile Char.isDigit
  match cs.dropWhile Char.isDigit with
  | '-' :: r2 =>
    let mds := r2.takeWhile Char.isDigit
    match r2.dropWhile Char.isDigit with
    | '-' :: r4 =>
      let dds := r4.takeWhile Char.isDigit
      let r5 := r4.dropWhile Char.isDigit
      let ws := r5.takeWhile isSpace
      let hds := (r5.dropWhile isSpace).takeWhile Char.isDigit
      match (r5.dropWhile isSpace).dropWhile Char.isDigit with
      | ':' :: r8 =>
        let mids := r8.takeWhile Char.isDigit
        let y := digitsVal yds
        let mo := digitsVal mds
        let d := digitsVal dds
        let h := digitsVal hds
        let mi := digitsVal mids
        if r8.dropWhile Char.isDigit = [] ∧
            yds.length = 4 ∧ 1 ≤ y ∧
            (mds.length = 1 ∨ mds.length = 2) ∧ 1 ≤ mo ∧ mo ≤ 12 ∧
            (dds.length = 1 ∨ dds.length = 2) ∧ 1 ≤ d ∧ d ≤ 31 ∧
            ¬ws.isEmpty ∧
            (hds.length = 1 ∨ hds.length = 2) ∧ h ≤ 23 ∧
            (mids.length = 1 ∨ mids.length = 2) ∧ mi ≤ 59 ∧
            d ≤ daysInMonth y mo then
          some ⟨y, mo, d, h, mi⟩
        else none
      | _ => none
    | _ => none
  | _ => none

/-- `validate_datetime` (src/main.py:129-135): true iff
`strptime(s, "%Y-%m-%d %H:%M")` succeeds. -/
def validate_datetime (s : String) : Bool :=
  (parseDatetime s).isSome

example : validate_datetime "2024-05-15 14:00" = true := by decide
example : validate_datetime "2024-5-15 14:00" = true := by decide
example : validate_datetime "2024-13-15 14:00" = false := by decide
example : validate_datetime "2024-02-30 14:00" = false := by decide
example : validate_datetime "2024-02-29 23:59" = true := by decide
example : validate_datetime "2023-02-29 23:59" = false := by decide
example : validate_datetime "2024-05-15 24:00" = false := by decide
example : validate_datetime "2024-05-15 14:60" = false := by decide
example : validate_datetime "2024-05-15  14:00" = true := by decide
example : validate_datetime "2024-05-15 14:00 " = false := by decide
example : validate_datetime "24-05-15 14:00" = false := by decide

/-! ### Data model

The JSON document `{"schedules": [...], "todos": [...]}` and the
`PersonalAssistant` fields `data`, `backup_data`, `last_command`. -/

/-- One entry of the `"schedules"` collection. -/
structure ScheduleItem where
  task : String
  datetime : String
  status : String
  deriving DecidableEq, Repr

/-- One entry of the `"todos"` collection. -/
structure TodoItem where
  task : String
  status : String
  deriving DecidableEq, Repr

/-- The in-memory document. -/
structure Document where
  schedules : List ScheduleItem
  todos : List TodoItem
  deriving DecidableEq, Repr

/-- The mutable state of a `PersonalAssistant` session: the live
document plus the single undo checkpoint slot (`backup_data`,
`last_command`).  Python's `copy.deepcopy` is the identity under value
semantics, so `create_backup` simply stores the current document. -/
structure AssistantState where
  data : Document
  backup_data : Option Document
  last_command : Option String
  deriving DecidableEq, Repr

/-- `PersonalAssistant.__init__`: the loaded document with an empty
checkpoint slot. -/
def initState (d : Document) : AssistantState :=
  { data := d, backup_data := none, last_command := none }

/-- Which branch of a mutation method fired, as observable from the
printed message and the returned `bool`: `ok` is the `True` return,
`saveFailed` the final `return False` after `save_data` failed, and
the others are the named early rejections. -/
inductive MutResult where
  | ok
  | invalidFormat
  | invalidStatus
  | duplicateEntry
  | notFound
  | outOfRange
  | emptyCollection
  | saveFailed
  deriving DecidableEq, Repr

/-- Outcome of `undo_last_command`, distinguishing the two `False`
returns by their messages. -/
inductive UndoResult where
  | ok
  | nothingToUndo
  | saveFailed
  deriving DecidableEq, Repr

/-- `create_backup` (src/main.py:31-35): deep-copy the document into
the checkpoint slot and record the command label. -/
def create_backup (st : AssistantState) (commandInfo : String) : AssistantState :=
  { st with backup_data := some st.data, last_command := some commandInfo }

/-- `undo_last_command` (src/main.py:37-59).  `saveOk` is the outcome
of the `save_data` call. -/
def undo_last_command (saveOk : Bool) (st : AssistantState) :
    AssistantState × UndoResult :=
  match st.backup_data with
  | none => (st, .nothingToUndo)
  | some bd =>
    match st.last_command with
    | none => (st, .nothingToUndo)
    | some _ =>
      let st' := { st with data := bd }
      if saveOk then
        ({ st' with backup_data := none, last_command := none }, .ok)
      else
        (st', .saveFailed)

/-! ### Mutation operations -/

/-- `add_schedule` (src/main.py:137-162). -/
def add_schedule (saveOk : Bool) (st : AssistantState) (task datetimeStr : String) :
    AssistantState × MutResult :=
  if !validate_datetime datetimeStr then
    (st, .invalidFormat)
  else
    let st := create_backup st ("add schedule " ++ task ++ " " ++ datetimeStr)
    if st.data.schedules.any (fun s => s.task = task && s.datetime = datetimeStr) then
      (st, .duplicateEntry)
    else
      let st := { st with data := { st.data with
        schedules := st.data.schedules ++ [⟨task, datetimeStr, "pending"⟩] } }
      if saveOk then (st, .ok) else (st, .saveFailed)

/-- `add_todo` (src/main.py:164-184). -/
def add_todo (saveOk : Bool) (st : AssistantState) (task : String) :
    AssistantState × MutResult :=
  let st := create_backup st ("add todo " ++ task)
  if st.data.todos.any (fun t => t.task = task) then
    (st, .duplicateEntry)
  else
    let st := { st with data := { st.data with
      todos := st.data.todos ++ [⟨task, "pending"⟩] } }
    if saveOk then (st, .ok) else (st, .saveFailed)

/-- The `for`-loop of `update_schedule_status`: overwrite the status of
the first schedule whose task matches, reporting failure when none does. -/
def updateFirstSchedule (task status : String) :
    List ScheduleItem → Option (List ScheduleItem)
  | [] => none
  | s :: rest =>
    if s.task = task then some ({ s with status := status } :: rest)
    else (updateFirstSchedule task status rest).map (s :: ·)

/-- The `for`-loop of `update_todo_status`. -/
def updateFirstTodo (task status : String) :
    List TodoItem → Option (List TodoItem)
  | [] => none
  | t :: rest =>
    if t.task = task then some ({ t with status := status } :: rest)
    else (updateFirstTodo task status rest).map (t :: ·)

/-- `update_schedule_status` (src/main.py:272-293). -/
def update_schedule_status (saveOk : Bool) (st : AssistantState)
    (task status : String) : AssistantState × MutResult :=
  if status ≠ "completed" ∧ status ≠ "pending" then
    (st, .invalidStatus)
  else
    let st := create_backup st ("update schedule " ++ task ++ " " ++ status)
    match updateFirstSchedule task status st.data.schedules with
    | none => (st, .notFound)
    | some schedules' =>
      let st := { st with data := { st.data with schedules := schedules' } }
      if saveOk then (st, .ok) else (st, .saveFailed)

/-- `update_todo_status` (src/main.py:295-316). -/
def update_todo_status (saveOk : Bool) (st : AssistantState)
    (task status : String) : AssistantState × MutResult :=
  if status ≠ "completed" ∧ status ≠ "pending" then
    (st, .invalidStatus)
  else
    let st := create_backup st ("update todo " ++ task ++ " " ++ status)
    match updateFirstTodo task status st.data.todos with
    | none => (st, .notFound)
    | some todos' =>
      let st := { st with data := { st.data with todos := todos' } }
      if saveOk then (st, .ok) else (st, .saveFailed)

/-- `done_todo_by_number` (src/main.py:318-339).  `number` is a Python
`int`, so it is modelled as `Int`. -/
def done_todo_by_number (saveOk : Bool) (st : AssistantState) (number : Int) :
    AssistantState × MutResult :=
  if st.data.todos.isEmpty then
    (st, .emptyCollection)
  else if number < 1 ∨ number > (st.data.todos.length : Int) then
    (st, .outOfRange)
  else
    let idx := (number - 1).toNat
    let todoTask := (st.data.todos.getD idx ⟨"", ""⟩).task
    let st := create_backup st ("done " ++ toString number ++ " (" ++ todoTask ++ ")")
    let todo := st.data.todos.getD idx ⟨"", ""⟩
    let st := { st with data := { st.data with
      todos := st.data.todos.set idx { todo with status := "completed" } } }
    if saveOk then (st, .ok) else (st, .saveFailed)

/-- `delete_todo_by_number` (src/main.py:341-364). -/
def delete_todo_by_number (saveOk : Bool) (st : AssistantState) (number : Int) :
    AssistantState × MutResult :=
  if st.data.todos.isEmpty then
    (st, .emptyCollection)
  else if number < 1 ∨ number > (st.data.todos.length : Int) then
    (st, .outOfRange)
  else
    let idx := (number - 1).toNat
    let todoTask := (st.data.todos.getD idx ⟨"", ""⟩).task
    let st := create_backup st ("delete " ++ toString number ++ " (" ++ todoTask ++ ")")
    let st := { st with data := { st.data with
      todos := st.data.todos.eraseIdx idx } }
    if saveOk then (st, .ok) else (st, .saveFailed)

/-- `toggle_todo_by_number` (src/main.py:366-389). -/
def toggle_todo_by_number (saveOk : Bool) (st : AssistantState) (number : Int) :
    AssistantState × MutResult :=
  if st.data.todos.isEmpty then
    (st, .emptyCollection)
  else if number < 1 ∨ number > (st.data.todos.length : Int) then
    (st, .outOfRange)
  else
    let idx := (number - 1).toNat
    let todo := st.data.todos.getD idx ⟨"", ""⟩
    let oldStatus := todo.status
    let newStatus := if oldStatus = "pending" then "completed" else "pending"
    let st := create_backup st ("update todo " ++ toString number ++ " (" ++
      todo.task ++ ": " ++ oldStatus ++ " -> " ++ newStatus ++ ")")
    let st := { st with data := { st.data with
      todos := st.data.todos.set idx { todo with status := newStatus } } }
    if saveOk then (st, .ok) else (st, .saveFailed)

/-! ### Query layer: `list_schedules`

Python compares `datetime` objects; a parsed `"%Y-%m-%d %H:%M"` value
is determined by its proleptic-Gregorian timestamp.  `now`
(`datetime.now()`) has sub-minute precision, so it is modelled as an
arbitrary integer number of seconds while stored schedule times land
on whole minutes. -/

/-- Days in years `1 .. y-1` of the proleptic Gregorian calendar. -/
def daysBeforeYear (y : Nat) : Nat :=
  let n := y - 1
  365 * n + n / 4 - n / 100 + n / 400

/-- Days in months `1 .. m-1` of year `y`. -/
def daysBeforeMonth (y m : Nat) : Nat :=
  (List.range (m - 1)).foldl (fun a i => a + daysInMonth y (i + 1)) 0

/-- Seconds since the calendar epoch of a parsed datetime; orders
parsed datetimes exactly as Python's `datetime` comparison does. -/
def dtSeconds (f : DateTimeFields) : Nat :=
  (((daysBeforeYear f.year + daysBeforeMonth f.year f.month + (f.day - 1)) * 24
    + f.hour) * 60 + f.minute) * 60

/-- Sort/filter key of one schedule:
`datetime.strptime(x["datetime"], "%Y-%m-%d %H:%M")` as seconds.  The
default is irrelevant whenever the stored text validates (Python would
raise on an unparseable stored datetime). -/
def scheduleSeconds (s : ScheduleItem) : Nat :=
  dtSeconds ((parseDatetime s.datetime).getD ⟨1, 1, 1, 0, 0⟩)

/-- `timedelta(days=30)` in seconds. -/
def thirtyDays : Int := 30 * 24 * 60 * 60

/-- `list_schedules` (src/main.py:186-252) as the pair
(past schedules printed first, future schedules printed second):
sort by parsed datetime ascending (Python's `sorted` is stable, as is
insertion sort), keep entries at or after `now` minus 30 days, then
split on `schedule_time < now`. -/
def list_schedules (now : Int) (d : Document) :
    List ScheduleItem × List ScheduleItem :=
  let sortedSchedules :=
    d.schedules.insertionSort (fun a b => scheduleSeconds a ≤ scheduleSeconds b)
  let filtered :=
    sortedSchedules.filter (fun s => decide (now - thirtyDays ≤ (scheduleSeconds s : Int)))
  (filtered.filter (fun s => decide ((scheduleSeconds s : Int) < now)),
   filtered.filter (fun s => decide (¬((scheduleSeconds s : Int) < now))))

/-! ### Command parser and dispatcher -/

/-- Sub-noun resolution for `add` (src/main.py:462-466). -/
def resolveAddSub (t : String) : String :=
  let s := pyLower t
  if pyStarts s "sc" || s = "s" then "schedule"
  else if pyStarts s "to" then "todo"
  else s

/-- Sub-noun resolution for `update` (src/main.py:527-531): unlike
`add`, the exact token `"t"` also resolves to `todo`. -/
def resolveUpdateSub (t : String) : String :=
  let s := pyLower t
  if pyStarts s "sc" || s = "s" then "schedule"
  else if pyStarts s "to" || s = "t" then "todo"
  else s

/-- Python `int(s)` on command tokens: optional surrounding whitespace,
optional sign, decimal digits; `none` models the `ValueError` branch. -/
def pyInt (s : String) : Option Int :=
  let cs := ((s.data.dropWhile isSpace).reverse.dropWhile isSpace).reverse
  match cs with
  | '-' :: ds =>
    if !ds.isEmpty && ds.all Char.isDigit then some (-(digitsVal ds : Int)) else none
  | '+' :: ds =>
    if !ds.isEmpty && ds.all Char.isDigit then some (digitsVal ds : Int) else none
  | ds =>
    if !ds.isEmpty && ds.all Char.isDigit then some (digitsVal ds : Int) else none

/-- The body of `parse_command` (src/main.py:442-598) after
tokenisation: routes the token list to an operation.  Queries (`list`),
`help`, and every error message leave the state unchanged; the `Bool`
is the continue flag (`False` only for `exit`). -/
def dispatch (saveOk : Bool) (st : AssistantState) :
    List String → AssistantState × Bool
  | [] => (st, true)
  | p0 :: rest =>
    let cmd := pyLower p0
    if cmd = "help" then (st, true)
    else if cmd = "exit" then (st, false)
    else if cmd = "add" then
      match rest with
      | [] => (st, true)
      | p1 :: args =>
        let sub := resolveAddSub p1
        if sub = "schedule" then
          match args with
          | task :: date :: time :: _ =>
            ((add_schedule saveOk st task (date ++ " " ++ time)).1, true)
          | _ => (st, true)
        else if sub = "todo" then
          match args with
          | [] => (st, true)
          | _ => ((add_todo saveOk st (" ".intercalate args)).1, true)
        else (st, true)
    else if cmd = "list" then (st, true)
    else if cmd = "update" then
      match rest with
      | p1 :: a2 :: args =>
        let sub := resolveUpdateSub p1
        if sub = "todo" then
          match args with
          | [] =>
            match pyInt a2 with
            | some n => ((toggle_todo_by_number saveOk st n).1, true)
            | none => (st, true)
          | [a3] => ((update_todo_status saveOk st a2 (pyLower a3)).1, true)
          | _ => (st, true)
        else if sub = "schedule" then
          match args with
          | a3 :: _ => ((update_schedule_status saveOk st a2 (pyLower a3)).1, true)
          | [] => (st, true)
        else (st, true)
      | _ => (st, true)
    else if cmd = "done" then
      match rest with
      | [] => (st, true)
      | p1 :: _ =>
        match pyInt p1 with
        | some n => ((done_todo_by_number saveOk st n).1, true)
        | none => (st, true)
    else if cmd = "delete" ∨ cmd = "del" ∨ cmd = "rm" then
      match rest with
      | [] => (st, true)
      | p1 :: _ =>
        match pyInt p1 with
        | some n => ((delete_todo_by_number saveOk st n).1, true)
        | none => (st, true)
    else if cmd = "undo" then ((undo_last_command saveOk st).1, true)
    else (st, true)

/-- `parse_command`: tokenise the raw line and dispatch. -/
def parse_command (saveOk : Bool) (st : AssistantState) (command : String) :
    AssistantState × Bool :=
  dispatch saveOk st (tokenize command)

/-- The seven mutation entry points, as one type for quantifying over
"every mutation". -/
inductive Mutation where
  | addSchedule (task datetimeStr : String)
  | addTodo (task : String)
  | updateScheduleStatus (task status : String)
  | updateTodoStatus (task status : String)
  | doneTodo (n : Int)
  | deleteTodo (n : Int)
  | toggleTodo (n : Int)
  deriving DecidableEq, Repr

/-- Run one mutation entry point. -/
def applyMutation (saveOk : Bool) (st : AssistantState) :
    Mutation → AssistantState × MutResult
  | .addSchedule t d => add_schedule saveOk st t d
  | .addTodo t => add_todo saveOk st t
  | .updateScheduleStatus t s => update_schedule_status saveOk st t s
  | .updateTodoStatus t s => update_todo_status saveOk st t s
  | .doneTodo n => done_todo_by_number saveOk st n
  | .deleteTodo n => delete_todo_by_number saveOk st n
  | .toggleTodo n => toggle_todo_by_number saveOk st n

/-! ### Helper lemmas about the mutation operations -/

/-- A successful mutation leaves the pre-mutation document in the
checkpoint slot, with some label. -/
theorem applyMutation_ok_backup (saveOk : Bool) (st : AssistantState) (M : Mutation)
    (h : (applyMutation saveOk st M).2 = .ok) :
    (applyMutation saveOk st M).1.backup_data = some st.data ∧
    (applyMutation saveOk st M).1.last_command.isSome := by
  rcases e : applyMutation saveOk st M with ⟨st', r⟩
  rw [e] at h
  dsimp only at h
  subst h
  cases M <;>
    unfold applyMutation add_schedule add_todo update_schedule_status
      update_todo_status done_todo_by_number delete_todo_by_number
      toggle_todo_by_number at e <;>
    (repeat' split at e) <;> simp_all [create_backup] <;>
    (repeat' split at e) <;> (try cases e) <;> simp_all [create_backup]

set_option maxHeartbeats 2000000 in
/-- A mutation rejected before its checkpoint (invalid format, invalid
status, empty collection, or out-of-range number) returns the state
entirely unchanged. -/
theorem applyMutation_early_reject (saveOk : Bool) (st : AssistantState) (M : Mutation)
    (h : (applyMutation saveOk st M).2 = .invalidFormat ∨
         (applyMutation saveOk st M).2 = .invalidStatus ∨
         (applyMutation saveOk st M).2 = .outOfRange ∨
         (applyMutation saveOk st M).2 = .emptyCollection) :
    (applyMutation saveOk st M).1 = st := by
  rcases e : applyMutation saveOk st M with ⟨st', r⟩
  rw [e] at h
  dsimp only at h
  rcases h with h | h | h | h <;> subst h <;>
  cases M <;>
    unfold applyMutation add_schedule add_todo update_schedule_status
      update_todo_status done_todo_by_number delete_todo_by_number
      toggle_todo_by_number at e <;>
    (repeat' split at e) <;> simp_all [create_backup] <;>
    (repeat' split at e) <;> simp_all [create_backup]

set_option maxHeartbeats 2000000 in
/-- A mutation rejected by a lookup made after its checkpoint
(duplicate entry or not-found) has replaced the checkpoint with the
pre-command document, left the document itself unchanged, and recorded
a label. -/
theorem applyMutation_lookup_reject (saveOk : Bool) (st : AssistantState) (M : Mutation)
    (h : (applyMutation saveOk st M).2 = .duplicateEntry ∨
         (applyMutation saveOk st M).2 = .notFound) :
    (applyMutation saveOk st M).1.backup_data = some st.data ∧
    (applyMutation saveOk st M).1.data = st.data ∧
    (applyMutation saveOk st M).1.last_command.isSome := by
  rcases e : applyMutation saveOk st M with ⟨st', r⟩
  rw [e] at h
  dsimp only at h
  rcases h with h | h <;> subst h <;>
  cases M <;>
    unfold applyMutation add_schedule add_todo update_schedule_status
      update_todo_status done_todo_by_number delete_todo_by_number
      toggle_todo_by_number at e <;>
    (repeat' split at e) <;> simp_all [create_backup] <;>
    (repeat' split at e) <;> (try cases e) <;> simp_all [create_backup]

/-- `undo_last_command` on a state holding a checkpoint, when the save
succeeds: the checkpoint document becomes live and the slot is cleared. -/
theorem undo_of_backup (st : AssistantState) (b : Document)
    (hb : st.backup_data = some b) (hl : st.last_command.isSome) :
    undo_last_command true st =
      ({ st with data := b, backup_data := none, last_command := none }, .ok) := by
  unfold undo_last_command
  rw [hb]
  rcases hl' : st.last_command with _ | l
  · rw [hl'] at hl; simp at hl
  · simp

/-- `undo_last_command` with an empty checkpoint slot: nothing happens. -/
theorem undo_of_no_backup (saveOk : Bool) (st : AssistantState)
    (hb : st.backup_data = none) :
    undo_last_command saveOk st = (st, .nothingToUndo) := by
  unfold undo_last_command
  rw [hb]

/-- The checkpoint slot invariant: the backed-up document and its
label are both present or both absent. -/
def checkpointInv (st : AssistantState) : Prop :=
  st.backup_data = none ↔ st.last_command = none

set_option maxHeartbeats 2000000 in
/-- A mutation whose save failed had passed all its checks, so the
pre-mutation document sits in the checkpoint slot. -/
theorem applyMutation_saveFailed_backup (saveOk : Bool) (st : AssistantState)
    (M : Mutation) (h : (applyMutation saveOk st M).2 = .saveFailed) :
    (applyMutation saveOk st M).1.backup_data = some st.data ∧
    (applyMutation saveOk st M).1.last_command.isSome := by
  rcases e : applyMutation saveOk st M with ⟨st', r⟩
  rw [e] at h
  dsimp only at h
  subst h
  cases M <;>
    unfold applyMutation add_schedule add_todo update_schedule_status
      update_todo_status done_todo_by_number delete_todo_by_number
      toggle_todo_by_number at e <;>
    (repeat' split at e) <;> simp_all [create_backup] <;>
    (repeat' split at e) <;> (try cases e) <;> simp_all [create_backup]

/-- Every mutation either leaves the state unchanged or fills both
checkpoint fields. -/
theorem applyMutation_shape (saveOk : Bool) (st : AssistantState) (M : Mutation) :
    (applyMutation saveOk st M).1 = st ∨
    ((applyMutation saveOk st M).1.backup_data = some st.data ∧
     (applyMutation saveOk st M).1.last_command.isSome) := by
  cases hr : (applyMutation saveOk st M).2 with
  | ok => exact Or.inr (applyMutation_ok_backup _ _ _ hr)
  | invalidFormat => exact Or.inl (applyMutation_early_reject _ _ _ (Or.inl hr))
  | invalidStatus =>
    exact Or.inl (applyMutation_early_reject _ _ _ (Or.inr (Or.inl hr)))
  | outOfRange =>
    exact Or.inl (applyMutation_early_reject _ _ _ (Or.inr (Or.inr (Or.inl hr))))
  | emptyCollection =>
    exact Or.inl (applyMutation_early_reject _ _ _ (Or.inr (Or.inr (Or.inr hr))))
  | duplicateEntry =>
    exact Or.inr ⟨(applyMutation_lookup_reject _ _ _ (Or.inl hr)).1,
      (applyMutation_lookup_reject _ _ _ (Or.inl hr)).2.2⟩
  | notFound =>
    exact Or.inr ⟨(applyMutation_lookup_reject _ _ _ (Or.inr hr)).1,
      (applyMutation_lookup_reject _ _ _ (Or.inr hr)).2.2⟩
  | saveFailed => exact Or.inr (applyMutation_saveFailed_backup _ _ _ hr)

/-- Mutations preserve the checkpoint slot invariant. -/
theorem applyMutation_inv (saveOk : Bool) (st : AssistantState) (M : Mutation)
    (h : checkpointInv st) : checkpointInv (applyMutation saveOk st M).1 := by
  rcases applyMutation_shape saveOk st M with hs | ⟨hb, hl⟩
  · rw [hs]; exact h
  · rcases hl' : (applyMutation saveOk st M).1.last_command with _ | l
    · rw [hl'] at hl; simp at hl
    · exact ⟨fun hn => absurd (hb ▸ hn) (Option.some_ne_none st.data),
             fun hn => absurd (hl' ▸ hn) (Option.some_ne_none l)⟩

/-- `undo_last_command` preserves the checkpoint slot invariant. -/
theorem undo_inv (saveOk : Bool) (st : AssistantState)
    (h : checkpointInv st) : checkpointInv (undo_last_command saveOk st).1 := by
  unfold undo_last_command
  rcases hb : st.backup_data with _ | b
  · exact h
  · rcases hl : st.last_command with _ | l
    · exact h
    · cases saveOk <;> simp [checkpointInv]

/-- Every dispatched command line either leaves the state unchanged
(queries, help, exit, every parse error), runs one of the seven
mutation operations, or runs undo. -/
theorem dispatch_cases (saveOk : Bool) (st : AssistantState) (parts : List String) :
    (dispatch saveOk st parts).1 = st ∨
    (∃ M, (dispatch saveOk st parts).1 = (applyMutation saveOk st M).1) ∨
    (dispatch saveOk st parts).1 = (undo_last_command saveOk st).1 := by
  match parts with
  | [] => exact Or.inl rfl
  | p0 :: rest =>
    unfold dispatch
    dsimp only
    repeat' split
    all_goals
      first
        | exact Or.inl rfl
        | exact Or.inr (Or.inr rfl)
        | exact Or.inr (Or.inl ⟨Mutation.addSchedule _ _, rfl⟩)
        | exact Or.inr (Or.inl ⟨Mutation.addTodo _, rfl⟩)
        | exact Or.inr (Or.inl ⟨Mutation.updateScheduleStatus _ _, rfl⟩)
        | exact Or.inr (Or.inl ⟨Mutation.updateTodoStatus _ _, rfl⟩)
        | exact Or.inr (Or.inl ⟨Mutation.doneTodo _, rfl⟩)
        | exact Or.inr (Or.inl ⟨Mutation.deleteTodo _, rfl⟩)
        | exact Or.inr (Or.inl ⟨Mutation.toggleTodo _, rfl⟩)

/-! ### Claims -/

/-- C1 (amended): a mutation rejected for `InvalidFormat`,
`InvalidStatus`, `OutOfRange`, or `EmptyCollection` leaves the held
checkpoint (`backup_data` and `last_command`) unchanged — the
format/status checks AND the number-range/emptiness checks all precede
checkpointing; a mutation rejected for `DuplicateEntry` or `NotFound`
replaces the held checkpoint with a deep copy of the pre-command
document before reporting the rejection. -/
theorem C1_checkpoint_before_mutate (saveOk : Bool) (st : AssistantState) (M : Mutation) :
    ((applyMutation saveOk st M).2 = .invalidFormat ∨
     (applyMutation saveOk st M).2 = .invalidStatus ∨
     (applyMutation saveOk st M).2 = .outOfRange ∨
     (applyMutation saveOk st M).2 = .emptyCollection →
      (applyMutation saveOk st M).1.backup_data = st.backup_data ∧
      (applyMutation saveOk st M).1.last_command = st.last_command) ∧
    ((applyMutation saveOk st M).2 = .duplicateEntry ∨
     (applyMutation saveOk st M).2 = .notFound →
      (applyMutation saveOk st M).1.backup_data = some st.data ∧
      (applyMutation saveOk st M).1.data = st.data) := by
  constructor
  · intro h
    rw [applyMutation_early_reject saveOk st M h]
    exact ⟨rfl, rfl⟩
  · intro h
    exact ⟨(applyMutation_lookup_reject saveOk st M h).1,
           (applyMutation_lookup_reject saveOk st M h).2.1⟩

/-- A session state holding a checkpoint different from a deep copy of
its live document, used to exercise the rejection paths. -/
def rejectExSt : AssistantState :=
  { data := ⟨[], []⟩,
    backup_data := some ⟨[], [⟨"old", "pending"⟩]⟩,
    last_command := some "add todo old" }

/-- C1 counterexample to the claim as stated: `delete 1` on an empty
todo list is rejected for `EmptyCollection`, yet the held checkpoint is
NOT replaced by a copy of the pre-command document — it still holds the
older snapshot. -/
theorem C1_counterexample_empty_keeps_checkpoint :
    (applyMutation true rejectExSt (.deleteTodo 1)).2 = MutResult.emptyCollection ∧
    (applyMutation true rejectExSt (.deleteTodo 1)).1.backup_data ≠
      some rejectExSt.data ∧
    (applyMutation true rejectExSt (.deleteTodo 1)).1.backup_data =
      rejectExSt.backup_data := by decide

/-- A state whose todo list already contains `"x"`, for the
duplicate-entry path. -/
def dupExSt : AssistantState :=
  { data := ⟨[], [⟨"x", "pending"⟩]⟩, backup_data := none, last_command := none }

/-- Witness for C1: an `EmptyCollection` rejection keeps the
checkpoint, a `DuplicateEntry` rejection replaces it. -/
theorem C1_checkpoint_before_mutate_witness :
    (applyMutation true rejectExSt (.deleteTodo 1)).1.backup_data =
      rejectExSt.backup_data ∧
    (applyMutation true dupExSt (.addTodo "x")).1.backup_data = some dupExSt.data :=
  ⟨((C1_checkpoint_before_mutate true rejectExSt (.deleteTodo 1)).1
      (by decide)).1,
   ((C1_checkpoint_before_mutate true dupExSt (.addTodo "x")).2
      (by decide)).1⟩

/-- C2: after any mutation `M` that succeeds (its save included), one
undo whose save succeeds restores the document to exactly its pre-`M`
state and reports success, and a second immediate undo fails with
"nothing to undo" and leaves the state unchanged. -/
theorem C2_undo_single_use (st : AssistantState) (M : Mutation)
    (h : (applyMutation true st M).2 = .ok) :
    (undo_last_command true (applyMutation true st M).1).1.data = st.data ∧
    (undo_last_command true (applyMutation true st M).1).2 = .ok ∧
    undo_last_command true (undo_last_command true (applyMutation true st M).1).1 =
      ((undo_last_command true (applyMutation true st M).1).1, .nothingToUndo) := by
  obtain ⟨hb, hl⟩ := applyMutation_ok_backup true st M h
  rw [undo_of_backup _ _ hb hl]
  exact ⟨rfl, rfl, undo_of_no_backup true _ rfl⟩

/-- Witness for C2: adding a todo to the empty document succeeds, and
one undo restores the empty document. -/
theorem C2_undo_single_use_witness :
    (applyMutation true (initState ⟨[], []⟩) (.addTodo "laundry")).2 = .ok ∧
    (undo_last_command true
      (applyMutation true (initState ⟨[], []⟩) (.addTodo "laundry")).1).1.data =
      (initState ⟨[], []⟩).data :=
  ⟨by decide, (C2_undo_single_use (initState ⟨[], []⟩) (.addTodo "laundry")
      (by decide)).1⟩

/-- C9: the checkpoint document and its label are `none` together and
`some` together: this holds initially and is preserved by every
dispatched command (mutations, queries, parse errors, and undo). -/
theorem C9_checkpoint_label_invariant :
    (∀ d : Document, checkpointInv (initState d)) ∧
    (∀ (saveOk : Bool) (st : AssistantState) (command : String),
      checkpointInv st → checkpointInv (parse_command saveOk st command).1) := by
  constructor
  · exact fun d => ⟨fun _ => rfl, fun _ => rfl⟩
  · intro saveOk st command h
    unfold parse_command
    rcases dispatch_cases saveOk st (tokenize command) with hc | ⟨M, hc⟩ | hc <;>
      rw [hc]
    · exact h
    · exact applyMutation_inv saveOk st M h
    · exact undo_inv saveOk st h

/-- Witness for C9: the invariant holds after a concrete command on a
fresh session. -/
theorem C9_checkpoint_label_invariant_witness :
    checkpointInv (parse_command true (initState ⟨[], []⟩) "add todo laundry").1 :=
  C9_checkpoint_label_invariant.2 true (initState ⟨[], []⟩) "add todo laundry"
    (C9_checkpoint_label_invariant.1 ⟨[], []⟩)

/-- C10: undo with a held checkpoint whose save fails has already
replaced the live document with the checkpoint contents, returns
failure, and clears neither the checkpoint nor its label, so an
immediately following undo does not report "nothing to undo" but
attempts the same restore (and save) again. -/
theorem C10_undo_save_failure (st : AssistantState) (b : Document) (l : String)
    (hb : st.backup_data = some b) (hl : st.last_command = some l) (saveOk₂ : Bool) :
    (undo_last_command false st).1.data = b ∧
    (undo_last_command false st).2 = .saveFailed ∧
    (undo_last_command false st).1.backup_data = some b ∧
    (undo_last_command false st).1.last_command = some l ∧
    (undo_last_command saveOk₂ (undo_last_command false st).1).2 ≠ .nothingToUndo ∧
    (undo_last_command saveOk₂ (undo_last_command false st).1).1.data = b := by
  have h1 : undo_last_command false st = ({ st with data := b }, .saveFailed) := by
    unfold undo_last_command
    rw [hb, hl]
    rfl
  rw [h1]
  refine ⟨rfl, rfl, hb, hl, ?_, ?_⟩ <;>
  · have h2 : undo_last_command saveOk₂ ({ st with data := b }) =
        if saveOk₂ then
          ({ st with data := b, backup_data := none, last_command := none },
            UndoResult.ok)
        else ({ st with data := b }, UndoResult.saveFailed) := by
      unfold undo_last_command
      dsimp only
      rw [hb, hl]
    rw [h2]
    cases saveOk₂ <;> simp

/-- `add_schedule` with a valid datetime and no duplicate appends the
new pending schedule (after checkpointing). -/
theorem add_schedule_no_dup (saveOk : Bool) (st : AssistantState) (task dt : String)
    (hv : validate_datetime dt = true)
    (hany : (st.data.schedules.any fun s => s.task = task && s.datetime = dt) = false) :
    add_schedule saveOk st task dt =
      ({ data := ⟨st.data.schedules ++ [⟨task, dt, "pending"⟩], st.data.todos⟩,
         backup_data := some st.data,
         last_command := some ("add schedule " ++ task ++ " " ++ dt) },
       if saveOk then .ok else .saveFailed) := by
  unfold add_schedule
  split
  · rename_i hcond; rw [hv] at hcond; exact absurd hcond (by simp)
  · dsimp only [create_backup]
    split
    · rename_i hdup; simp only [hany] at hdup; cases hdup
    · split <;> rfl

/-- `add_schedule` with a valid datetime and an existing duplicate:
checkpoint replaced, document unchanged, `DuplicateEntry` reported. -/
theorem add_schedule_dup (saveOk : Bool) (st : AssistantState) (task dt : String)
    (hv : validate_datetime dt = true)
    (hany : (st.data.schedules.any fun s => s.task = task && s.datetime = dt) = true) :
    add_schedule saveOk st task dt =
      (create_backup st ("add schedule " ++ task ++ " " ++ dt), .duplicateEntry) := by
  unfold add_schedule
  split
  · rename_i hcond; rw [hv] at hcond; exact absurd hcond (by simp)
  · dsimp only [create_backup]
    split
    · rfl
    · rename_i hdup; exact absurd hany hdup

/-- `add_todo` with no duplicate appends the new pending todo. -/
theorem add_todo_no_dup (saveOk : Bool) (st : AssistantState) (task : String)
    (hany : (st.data.todos.any fun t => t.task = task) = false) :
    add_todo saveOk st task =
      ({ data := ⟨st.data.schedules, st.data.todos ++ [⟨task, "pending"⟩]⟩,
         backup_data := some st.data,
         last_command := some ("add todo " ++ task) },
       if saveOk then .ok else .saveFailed) := by
  unfold add_todo
  dsimp only [create_backup]
  split
  · rename_i hdup; simp only [hany] at hdup; cases hdup
  · split <;> rfl

/-- `add_todo` with an existing duplicate task: checkpoint replaced,
document unchanged, `DuplicateEntry` reported. -/
theorem add_todo_dup (saveOk : Bool) (st : AssistantState) (task : String)
    (hany : (st.data.todos.any fun t => t.task = task) = true) :
    add_todo saveOk st task =
      (create_backup st ("add todo " ++ task), .duplicateEntry) := by
  unfold add_todo
  dsimp only [create_backup]
  split
  · rfl
  · rename_i hdup; exact absurd hany hdup

/-- C3: with a valid datetime and no pre-existing duplicate, adding the
same schedule twice succeeds the first time (appending a pending item)
and fails the second time with `DuplicateEntry`, the second call
leaving the schedules collection unchanged; analogously for todos. -/
theorem C3_add_twice_duplicate (st : AssistantState) (task dt : String) :
    (validate_datetime dt = true →
     (∀ s ∈ st.data.schedules, ¬(s.task = task ∧ s.datetime = dt)) →
      (add_schedule true st task dt).2 = .ok ∧
      (add_schedule true st task dt).1.data.schedules =
        st.data.schedules ++ [⟨task, dt, "pending"⟩] ∧
      (add_schedule true (add_schedule true st task dt).1 task dt).2 =
        .duplicateEntry ∧
      (add_schedule true (add_schedule true st task dt).1 task dt).1.data.schedules =
        (add_schedule true st task dt).1.data.schedules) ∧
    ((∀ t ∈ st.data.todos, t.task ≠ task) →
      (add_todo true st task).2 = .ok ∧
      (add_todo true st task).1.data.todos = st.data.todos ++ [⟨task, "pending"⟩] ∧
      (add_todo true (add_todo true st task).1 task).2 = .duplicateEntry ∧
      (add_todo true (add_todo true st task).1 task).1.data.todos =
        (add_todo true st task).1.data.todos) := by
  constructor
  · intro hv hnd
    have hany : (st.data.schedules.any fun s => s.task = task && s.datetime = dt) = false := by
      simp only [List.any_eq_false, Bool.and_eq_true, decide_eq_true_eq, not_and]
      exact fun s hs h1 h2 => hnd s hs ⟨h1, h2⟩
    rw [add_schedule_no_dup true st task dt hv hany]
    refine ⟨rfl, rfl, ?_, ?_⟩
    · rw [add_schedule_dup true _ task dt hv (by simp)]
    · rw [add_schedule_dup true _ task dt hv (by simp)]; rfl
  · intro hnd
    have hany : (st.data.todos.any fun t => t.task = task) = false := by
      simp only [List.any_eq_false, decide_eq_true_eq]
      exact fun t ht => hnd t ht
    rw [add_todo_no_dup true st task hany]
    refine ⟨rfl, rfl, ?_, ?_⟩
    · rw [add_todo_dup true _ task (by simp)]
    · rw [add_todo_dup true _ task (by simp)]; rfl

/-- Witness for C3 at a concrete task and datetime on the empty
document. -/
theorem C3_add_twice_duplicate_witness :
    (add_schedule true (initState ⟨[], []⟩) "meet" "2024-05-15 14:00").2 = .ok ∧
    (add_schedule true
      (add_schedule true (initState ⟨[], []⟩) "meet" "2024-05-15 14:00").1
      "meet" "2024-05-15 14:00").2 = .duplicateEntry ∧
    (add_todo true (initState ⟨[], []⟩) "laundry").2 = .ok ∧
    (add_todo true (add_todo true (initState ⟨[], []⟩) "laundry").1
      "laundry").2 = .duplicateEntry :=
  ⟨((C3_add_twice_duplicate (initState ⟨[], []⟩) "meet" "2024-05-15 14:00").1
      (by decide) (by decide)).1,
   ((C3_add_twice_duplicate (initState ⟨[], []⟩) "meet" "2024-05-15 14:00").1
      (by decide) (by decide)).2.2.1,
   ((C3_add_twice_duplicate (initState ⟨[], []⟩) "laundry" "x").2 (by decide)).1,
   ((C3_add_twice_duplicate (initState ⟨[], []⟩) "laundry" "x").2 (by decide)).2.2.1⟩

/-- C4 (amended): `add_schedule` fails with `InvalidFormat` exactly
when `datetime_text` is rejected by `strptime("%Y-%m-%d %H:%M")` — a
strictly weaker test than the canonical `YYYY-MM-DD HH:MM` form, since
`strptime` also accepts unpadded month/day/hour/minute fields and runs
of whitespace — and on that failure no checkpoint is taken and neither
the document nor the checkpoint slot is mutated. -/
theorem C4_invalid_format (saveOk : Bool) (st : AssistantState) (task dt : String) :
    ((add_schedule saveOk st task dt).2 = .invalidFormat ↔
      validate_datetime dt = false) ∧
    (validate_datetime dt = false →
      add_schedule saveOk st task dt = (st, .invalidFormat)) := by
  have hneg : validate_datetime dt = false →
      add_schedule saveOk st task dt = (st, .invalidFormat) := by
    intro hv
    unfold add_schedule
    rw [if_pos (by rw [hv]; rfl)]
  refine ⟨⟨?_, fun hv => by rw [hneg hv]⟩, hneg⟩
  intro h
  rcases hv : validate_datetime dt with _ | _
  · rfl
  · exfalso
    unfold add_schedule at h
    rw [if_neg (by rw [hv]; simp)] at h
    dsimp only [create_backup] at h
    split at h
    · simp at h
    · split at h <;> simp at h

/-- The canonical datetime form of the specification, modelled from
the spec's words: text strictly matching `YYYY-MM-DD HH:MM`
(zero-padded two-digit month, day, hour, minute; four-digit year; a
single space) that parses as a real calendar date/time. -/
def canonicalDatetimeSpec (s : String) : Bool :=
  match s.data with
  | [y1, y2, y3, y4, '-', m1, m2, '-', d1, d2, ' ', h1, h2, ':', n1, n2] =>
    [y1, y2, y3, y4, m1, m2, d1, d2, h1, h2, n1, n2].all Char.isDigit &&
    (let y := digitsVal [y1, y2, y3, y4]
     let mo := digitsVal [m1, m2]
     let d := digitsVal [d1, d2]
     let h := digitsVal [h1, h2]
     let mi := digitsVal [n1, n2]
     decide (1 ≤ y) && decide (1 ≤ mo) && decide (mo ≤ 12) && decide (1 ≤ d) &&
       decide (d ≤ daysInMonth y mo) && decide (h ≤ 23) && decide (mi ≤ 59))
  | _ => false

/-- C4 counterexample to the claim as stated: `"2024-5-15 14:00"` does
not match the canonical `YYYY-MM-DD HH:MM` form, yet `add_schedule`
does not fail with `InvalidFormat` on it — Python's `strptime` accepts
the unpadded month. -/
theorem C4_counterexample_noncanonical_accepted :
    canonicalDatetimeSpec "2024-5-15 14:00" = false ∧
    validate_datetime "2024-5-15 14:00" = true ∧
    (add_schedule true (initState ⟨[], []⟩) "meet" "2024-5-15 14:00").2 ≠
      MutResult.invalidFormat := by decide

/-- Witness for C4 at a concrete malformed datetime. -/
theorem C4_invalid_format_witness :
    add_schedule true (initState ⟨[], []⟩) "meet" "2024/05/15 14:00" =
      ((initState ⟨[], []⟩), .invalidFormat) :=
  (C4_invalid_format true (initState ⟨[], []⟩) "meet" "2024/05/15 14:00").2
    (by decide)

/-- On an in-range number, `delete_todo_by_number` erases exactly the
`(n-1)`-indexed todo (whatever the save outcome). -/
theorem delete_todo_in_range (saveOk : Bool) (st : AssistantState) (n : Int)
    (h1 : 1 ≤ n) (h2 : n ≤ (st.data.todos.length : Int)) :
    (delete_todo_by_number saveOk st n).1.data.todos =
      st.data.todos.eraseIdx (n - 1).toNat := by
  have hlen : 0 < st.data.todos.length := by omega
  have hne : st.data.todos ≠ [] := List.ne_nil_of_length_pos hlen
  unfold delete_todo_by_number
  rw [if_neg (by simp [hne]), if_neg (by rintro (h | h) <;> omega)]
  dsimp only [create_backup]
  split <;> rfl

/-- C5: `delete_todo_by_number` fails with `EmptyCollection` on an
empty list and with `OutOfRange` when `n` is outside `[1, count]`, in
both cases leaving the state unchanged; for `1 ≤ n ≤ count` it removes
exactly the n-th (1-indexed) item, keeping the prefix in place and
shifting every later item one position down. -/
theorem C5_delete_todo_by_number (saveOk : Bool) (st : AssistantState) (n : Int) :
    (st.data.todos = [] →
      delete_todo_by_number saveOk st n = (st, .emptyCollection)) ∧
    (st.data.todos ≠ [] → (n < 1 ∨ (st.data.todos.length : Int) < n) →
      delete_todo_by_number saveOk st n = (st, .outOfRange)) ∧
    (1 ≤ n → n ≤ (st.data.todos.length : Int) →
      (delete_todo_by_number saveOk st n).1.data.todos =
        st.data.todos.take (n - 1).toNat ++ st.data.todos.drop n.toNat ∧
      (delete_todo_by_number saveOk st n).1.data.todos.length =
        st.data.todos.length - 1 ∧
      (∀ k : Nat, (delete_todo_by_number saveOk st n).1.data.todos[(n - 1).toNat + k]? =
        st.data.todos[n.toNat + k]?) ∧
      (∀ k : Nat, k < (n - 1).toNat →
        (delete_todo_by_number saveOk st n).1.data.todos[k]? =
          st.data.todos[k]?)) := by
  refine ⟨?_, ?_, ?_⟩
  · intro h
    unfold delete_todo_by_number
    rw [if_pos (by rw [h]; rfl)]
  · intro hne hout
    unfold delete_todo_by_number
    rw [if_neg (by simp [hne]), if_pos hout]
  · intro h1 h2
    have he := delete_todo_in_range saveOk st n h1 h2
    have hidx : (n - 1).toNat + 1 = n.toNat := by omega
    have hlt : (n - 1).toNat < st.data.todos.length := by omega
    refine ⟨?_, ?_, ?_, ?_⟩
    · rw [he, List.eraseIdx_eq_take_drop_succ, hidx]
    · rw [he, List.length_eraseIdx_of_lt hlt]
    · intro k
      rw [he, List.getElem?_eraseIdx_of_ge _ _ _ (Nat.le_add_right _ _)]
      congr 1
      omega
    · intro k hk
      rw [he, List.getElem?_eraseIdx_of_lt _ _ _ hk]

/-- A session holding three pending todos. -/
def threeTodoSt : AssistantState :=
  initState ⟨[], [⟨"a", "pending"⟩, ⟨"b", "pending"⟩, ⟨"c", "pending"⟩]⟩

/-- Witness for C5: deleting todo 1 of three leaves the former #2 and
#3 at positions 1 and 2. -/
theorem C5_delete_todo_by_number_witness :
    (delete_todo_by_number true threeTodoSt 1).1.data.todos =
      threeTodoSt.data.todos.take 0 ++ threeTodoSt.data.todos.drop 1 ∧
    (delete_todo_by_number true threeTodoSt 1).1.data.todos[0]? =
      threeTodoSt.data.todos[1]? ∧
    delete_todo_by_number true threeTodoSt 4 = (threeTodoSt, .outOfRange) :=
  ⟨((C5_delete_todo_by_number true threeTodoSt 1).2.2 (by decide) (by decide)).1,
   ((C5_delete_todo_by_number true threeTodoSt 1).2.2 (by decide) (by decide)).2.2.1 0,
   (C5_delete_todo_by_number true threeTodoSt 4).2.1 (by decide) (by decide)⟩

/-- C6: `list_schedules` displays exactly the schedules whose parsed
datetime is at or after `now` minus 30 days (as a multiset of the
document's schedules), in ascending datetime order, with the past
group (datetime < now) printed before the future group
(datetime ≥ now); anything older than 30 days is excluded. -/
theorem C6_list_schedules (now : Int) (d : Document)
    (_hp : ∀ s ∈ d.schedules, validate_datetime s.datetime = true) :
    ((list_schedules now d).1 ++ (list_schedules now d).2).Perm
      (d.schedules.filter fun s => decide (now - thirtyDays ≤ (scheduleSeconds s : Int))) ∧
    ((list_schedules now d).1 ++ (list_schedules now d).2).Pairwise
      (fun a b => scheduleSeconds a ≤ scheduleSeconds b) ∧
    (∀ s ∈ (list_schedules now d).1, (scheduleSeconds s : Int) < now) ∧
    (∀ s ∈ (list_schedules now d).2, now ≤ (scheduleSeconds s : Int)) ∧
    (∀ s ∈ d.schedules, (scheduleSeconds s : Int) < now - thirtyDays →
      s ∉ (list_schedules now d).1 ∧ s ∉ (list_schedules now d).2) := by
  haveI hTot : IsTotal ScheduleItem (fun a b => scheduleSeconds a ≤ scheduleSeconds b) :=
    ⟨fun a b => Nat.le_total _ _⟩
  haveI hTrans : IsTrans ScheduleItem (fun a b => scheduleSeconds a ≤ scheduleSeconds b) :=
    ⟨fun _ _ _ => Nat.le_trans⟩
  have hls : list_schedules now d =
      (((d.schedules.insertionSort (fun a b => scheduleSeconds a ≤ scheduleSeconds b)).filter
          (fun s => decide (now - thirtyDays ≤ (scheduleSeconds s : Int)))).filter
        (fun s => decide ((scheduleSeconds s : Int) < now)),
       ((d.schedules.insertionSort (fun a b => scheduleSeconds a ≤ scheduleSeconds b)).filter
          (fun s => decide (now - thirtyDays ≤ (scheduleSeconds s : Int)))).filter
        (fun s => decide (¬((scheduleSeconds s : Int) < now)))) := rfl
  rw [hls]
  dsimp only
  have hpermSort : (d.schedules.insertionSort
      (fun a b => scheduleSeconds a ≤ scheduleSeconds b)).Perm d.schedules :=
    List.perm_insertionSort _ _
  have hsorted : ((d.schedules.insertionSort
      (fun a b => scheduleSeconds a ≤ scheduleSeconds b)).filter
        (fun s => decide (now - thirtyDays ≤ (scheduleSeconds s : Int)))).Pairwise
      (fun a b => scheduleSeconds a ≤ scheduleSeconds b) :=
    List.Pairwise.sublist (List.filter_sublist _) (List.sorted_insertionSort _ _)
  refine ⟨?_, ?_, ?_, ?_, ?_⟩
  · refine List.Perm.trans ?_ (hpermSort.filter _)
    simp only [decide_not]
    exact List.filter_append_perm _ _
  · refine (List.pairwise_append).2 ⟨List.Pairwise.sublist (List.filter_sublist _) hsorted,
      List.Pairwise.sublist (List.filter_sublist _) hsorted, ?_⟩
    intro a ha b hb
    have ha' := (List.mem_filter.1 ha).2
    have hb' := (List.mem_filter.1 hb).2
    simp only [decide_eq_true_eq] at ha' hb'
    have : (scheduleSeconds a : Int) < (scheduleSeconds b : Int) := by omega
    exact_mod_cast this.le
  · intro s hs
    have := (List.mem_filter.1 hs).2
    simpa using this
  · intro s hs
    have := (List.mem_filter.1 hs).2
    simp only [decide_eq_true_eq, Int.not_lt] at this
    exact this
  · intro s _ hold
    constructor <;>
    · intro hmem
      have hF := (List.mem_filter.1 hmem).1
      have hq := (List.mem_filter.1 hF).2
      simp only [decide_eq_true_eq] at hq
      omega

/-- The reference instant for the C6 witness: 2024-05-15 12:00. -/
def nowWitness : Int := (dtSeconds ⟨2024, 5, 15, 12, 0⟩ : Nat)

/-- A document with schedules 31 days past, 29 days past, and 5 days
ahead of `nowWitness`, deliberately unsorted. -/
def docWitness : Document :=
  ⟨[⟨"past31", "2024-04-14 12:00", "pending"⟩,
    ⟨"future5", "2024-05-20 09:00", "pending"⟩,
    ⟨"past29", "2024-04-16 12:00", "pending"⟩], []⟩

/-- Witness for C6: the 31-day-old schedule is excluded, the
29-day-old one lands in the past group, the future one in the future
group. -/
theorem C6_list_schedules_witness :
    (∀ s ∈ docWitness.schedules, validate_datetime s.datetime = true) ∧
    list_schedules nowWitness docWitness =
      ([⟨"past29", "2024-04-16 12:00", "pending"⟩],
       [⟨"future5", "2024-05-20 09:00", "pending"⟩]) ∧
    (∀ s ∈ (list_schedules nowWitness docWitness).1,
      (scheduleSeconds s : Int) < nowWitness) :=
  ⟨by decide, by decide,
   (C6_list_schedules nowWitness docWitness (by decide)).2.2.1⟩

/-- C7 (amended): with verb token `add` and a token-1 that resolves to
the schedule sub-noun, the dispatcher invokes `add_schedule` whenever
the line has AT LEAST 5 tokens, taking token 2 as the task and tokens
3 and 4 joined by a space as the datetime text and silently ignoring
any further tokens; with fewer than 5 tokens it reports a format error
and leaves the state unchanged. -/
theorem C7_add_schedule_arity (saveOk : Bool) (st : AssistantState)
    (p0 p1 : String) (rest : List String)
    (h0 : pyLower p0 = "add") (h1 : resolveAddSub p1 = "schedule") :
    (∀ task date time rest2, rest = task :: date :: time :: rest2 →
      dispatch saveOk st (p0 :: p1 :: rest) =
        ((add_schedule saveOk st task (date ++ " " ++ time)).1, true)) ∧
    (rest.length < 3 → dispatch saveOk st (p0 :: p1 :: rest) = (st, true)) := by
  constructor
  · rintro task date time rest2 rfl
    unfold dispatch
    dsimp only
    rw [h0, h1]
    rw [if_neg (by decide), if_neg (by decide), if_pos rfl, if_pos rfl]
  · intro hlen
    unfold dispatch
    dsimp only
    rw [h0, h1]
    rw [if_neg (by decide), if_neg (by decide), if_pos rfl, if_pos rfl]
    match rest, hlen with
    | [], _ => rfl
    | [a], _ => rfl
    | [a, b], _ => rfl

/-- Witness for C7: a five-token `add schedule` line runs
`add_schedule`, a four-token one is a format error. -/
theorem C7_add_schedule_arity_witness :
    dispatch true (initState ⟨[], []⟩)
        ["add", "schedule", "meet", "2024-05-15", "14:00"] =
      ((add_schedule true (initState ⟨[], []⟩) "meet"
          ("2024-05-15" ++ " " ++ "14:00")).1, true) ∧
    dispatch true (initState ⟨[], []⟩) ["add", "schedule", "meet", "2024-05-15"] =
      (initState ⟨[], []⟩, true) :=
  ⟨(C7_add_schedule_arity true (initState ⟨[], []⟩) "add" "schedule"
      ["meet", "2024-05-15", "14:00"] (by decide) (by decide)).1
      "meet" "2024-05-15" "14:00" [] rfl,
   (C7_add_schedule_arity true (initState ⟨[], []⟩) "add" "schedule"
      ["meet", "2024-05-15"] (by decide) (by decide)).2 (by decide)⟩

/-- C7 counterexample to the claim as stated: a six-token
`add schedule` line does NOT report a format error — the dispatcher
still invokes `add_schedule` on tokens 2-4 and mutates the document,
ignoring the extra token. -/
theorem C7_counterexample_extra_tokens_accepted :
    (tokenize "add schedule meet 2024-05-15 14:00 extra").length = 6 ∧
    (parse_command true (initState ⟨[], []⟩)
        "add schedule meet 2024-05-15 14:00 extra").1.data.schedules =
      [⟨"meet", "2024-05-15 14:00", "pending"⟩] ∧
    (parse_command true (initState ⟨[], []⟩)
        "add schedule meet 2024-05-15 14:00 extra").1 ≠ initState ⟨[], []⟩ := by
  decide

/-- A character list cannot start with both `"sc"` and `"to"`. -/
theorem no_sc_to (l : List Char) :
    listStarts l ['s', 'c'] = true → listStarts l ['t', 'o'] = true → False := by
  match l with
  | [] => simp [listStarts]
  | c :: cs =>
    simp only [listStarts, Bool.and_eq_true, decide_eq_true_eq]
    rintro ⟨rfl, _⟩ ⟨h, _⟩
    exact absurd h (by decide)

/-- The `add` sub-noun resolves to `schedule` exactly on lower-cased
tokens starting with `"sc"` or equal to `"s"`. -/
theorem resolveAddSub_schedule_iff (t : String) :
    resolveAddSub t = "schedule" ↔
      (pyStarts (pyLower t) "sc" = true ∨ pyLower t = "s") := by
  unfold resolveAddSub
  dsimp only
  split_ifs with h1 h2
  · simp only [Bool.or_eq_true, decide_eq_true_eq] at h1
    exact ⟨fun _ => h1, fun _ => rfl⟩
  · constructor
    · intro he; exact absurd he (by decide)
    · intro hr
      simp only [Bool.or_eq_true, decide_eq_true_eq] at h1
      exact absurd hr h1
  · constructor
    · intro he
      rw [he] at h1
      exact absurd (by decide) h1
    · intro hr
      simp only [Bool.or_eq_true, decide_eq_true_eq] at h1
      exact absurd hr h1

/-- The `add` sub-noun resolves to `todo` exactly on lower-cased
tokens starting with `"to"`. -/
theorem resolveAddSub_todo_iff (t : String) :
    resolveAddSub t = "todo" ↔ pyStarts (pyLower t) "to" = true := by
  unfold resolveAddSub
  dsimp only
  split_ifs with h1 h2
  · constructor
    · intro he; exact absurd he (by decide)
    · intro hr
      simp only [Bool.or_eq_true, decide_eq_true_eq] at h1
      rcases h1 with h1 | h1
      · exact absurd (no_sc_to (pyLower t).data h1 hr) (fun h => h)
      · rw [h1] at hr; exact absurd hr (by decide)
  · exact ⟨fun _ => h2, fun _ => rfl⟩
  · constructor
    · intro he
      rw [he] at h2
      exact absurd (by decide) h2
    · intro hr
      exact absurd hr h2

/-- The `update` sub-noun resolves to `schedule` exactly as `add` does. -/
theorem resolveUpdateSub_schedule_iff (t : String) :
    resolveUpdateSub t = "schedule" ↔
      (pyStarts (pyLower t) "sc" = true ∨ pyLower t = "s") := by
  unfold resolveUpdateSub
  dsimp only
  split_ifs with h1 h2
  · simp only [Bool.or_eq_true, decide_eq_true_eq] at h1
    exact ⟨fun _ => h1, fun _ => rfl⟩
  · constructor
    · intro he; exact absurd he (by decide)
    · intro hr
      simp only [Bool.or_eq_true, decide_eq_true_eq] at h1
      exact absurd hr h1
  · constructor
    · intro he
      rw [he] at h1
      exact absurd (by decide) h1
    · intro hr
      simp only [Bool.or_eq_true, decide_eq_true_eq] at h1
      exact absurd hr h1

/-- The `update` sub-noun resolves to `todo` on lower-cased tokens
starting with `"to"` OR — unlike `add` — exactly equal to `"t"`. -/
theorem resolveUpdateSub_todo_iff (t : String) :
    resolveUpdateSub t = "todo" ↔
      (pyStarts (pyLower t) "to" = true ∨ pyLower t = "t") := by
  unfold resolveUpdateSub
  dsimp only
  split_ifs with h1 h2
  · constructor
    · intro he; exact absurd he (by decide)
    · intro hr
      simp only [Bool.or_eq_true, decide_eq_true_eq] at h1
      rcases h1 with h1 | h1
      · rcases hr with hr | hr
        · exact absurd (no_sc_to (pyLower t).data h1 hr) (fun h => h)
        · rw [hr] at h1; exact absurd h1 (by decide)
      · rcases hr with hr | hr
        · rw [h1] at hr; exact absurd hr (by decide)
        · rw [hr] at h1; exact absurd h1 (by decide)
  · constructor
    · intro _
      simp only [Bool.or_eq_true, decide_eq_true_eq] at h2
      exact h2
    · intro _; rfl
  · constructor
    · intro he
      rw [he] at h2
      exact absurd (by decide) h2
    · intro hr
      simp only [Bool.or_eq_true, decide_eq_true_eq] at h2
      exact absurd hr h2

/-- C8 (amended): for `add`, token 1 lower-cased resolves to schedule
exactly when it starts with `"sc"` or equals `"s"`, and to todo
exactly when it starts with `"to"`; for `update`, the exact token
`"t"` ALSO resolves to todo; any token resolving to neither yields an
unknown-sub-command error with no state change. -/
theorem C8_sub_noun_resolution (t : String) :
    (resolveAddSub t = "schedule" ↔
      (pyStarts (pyLower t) "sc" = true ∨ pyLower t = "s")) ∧
    (resolveAddSub t = "todo" ↔ pyStarts (pyLower t) "to" = true) ∧
    (resolveUpdateSub t = "schedule" ↔
      (pyStarts (pyLower t) "sc" = true ∨ pyLower t = "s")) ∧
    (resolveUpdateSub t = "todo" ↔
      (pyStarts (pyLower t) "to" = true ∨ pyLower t = "t")) ∧
    (∀ (saveOk : Bool) (st : AssistantState) (rest : List String),
      resolveAddSub t ≠ "schedule" → resolveAddSub t ≠ "todo" →
      dispatch saveOk st ("add" :: t :: rest) = (st, true)) ∧
    (∀ (saveOk : Bool) (st : AssistantState) (a2 : String) (args : List String),
      resolveUpdateSub t ≠ "schedule" → resolveUpdateSub t ≠ "todo" →
      dispatch saveOk st ("update" :: t :: a2 :: args) = (st, true)) := by
  refine ⟨resolveAddSub_schedule_iff t, resolveAddSub_todo_iff t,
    resolveUpdateSub_schedule_iff t, resolveUpdateSub_todo_iff t, ?_, ?_⟩
  · intro saveOk st rest hna hnb
    unfold dispatch
    dsimp only
    rw [(by decide : pyLower "add" = "add")]
    rw [if_neg (by decide), if_neg (by decide), if_pos rfl,
      if_neg hna, if_neg hnb]
  · intro saveOk st a2 args hna hnb
    unfold dispatch
    dsimp only
    rw [(by decide : pyLower "update" = "update")]
    rw [if_neg (by decide), if_neg (by decide), if_neg (by decide),
      if_neg (by decide), if_pos rfl, if_neg hnb, if_neg hna]

/-- A session holding one pending todo. -/
def oneTodoSt : AssistantState := initState ⟨[], [⟨"wash", "pending"⟩]⟩

/-- C8 counterexample to the claim as stated: under the `update` verb
the token `"t"` does not start with `"to"`, yet it resolves to the
todo sub-noun and `update t 1` toggles the todo instead of reporting
an unknown-sub-command error. -/
theorem C8_counterexample_update_t :
    pyStarts (pyLower "t") "to" = false ∧
    resolveUpdateSub "t" = "todo" ∧
    (dispatch true oneTodoSt ["update", "t", "1"]).1.data.todos =
      [⟨"wash", "completed"⟩] := by decide

/-- Witness for C8: concrete resolutions and an unknown sub-noun
leaving the state unchanged. -/
theorem C8_sub_noun_resolution_witness :
    resolveAddSub "sc" = "schedule" ∧
    resolveUpdateSub "t" = "todo" ∧
    dispatch true oneTodoSt ["add", "x", "y"] = (oneTodoSt, true) :=
  ⟨(C8_sub_noun_resolution "sc").1.2 (Or.inl (by decide)),
   (C8_sub_noun_resolution "t").2.2.2.1.2 (Or.inr (by decide)),
   (C8_sub_noun_resolution "x").2.2.2.2.1 true oneTodoSt ["y"]
     (by decide) (by decide)⟩

/-- Witness for C10: a concrete held checkpoint, failed save. -/
theorem C10_undo_save_failure_witness :
    (undo_last_command false rejectExSt).2 = UndoResult.saveFailed ∧
    (undo_last_command false rejectExSt).1.data = ⟨[], [⟨"old", "pending"⟩]⟩ :=
  ⟨(C10_undo_save_failure rejectExSt ⟨[], [⟨"old", "pending"⟩]⟩ "add todo old"
      rfl rfl true).2.1,
   (C10_undo_save_failure rejectExSt ⟨[], [⟨"old", "pending"⟩]⟩ "add todo old"
      rfl rfl true).1⟩

end ScheduleAssistant
